import Mathlib

/-!
# Verification of the dotmesh Kubernetes operator reconcile loop

A shallow embedding of the dotmesh operator (`cmd/operator/main.go`):
the configuration resolver (`provideDefault`, `newDotmeshController`),
the pod factory, and the reconcile pass (`process`), together with
theorems about the claims of the specification.

Go `map[string]string` values are embedded as association lists with
first-match lookup and replace-or-append insertion; Go
`map[string]struct{}` sets are embedded as duplicate-free lists with
insert-if-absent.  Pod phases are embedded as the strings the Go
`v1.PodPhase` type wraps ("Running", "Failed", ...).  API calls are
embedded by recording the attempted mutations in a `PassResult`, with
Boolean oracles deciding which individual calls fail.
-/

set_option autoImplicit false

/-! ## Constants from the source -/

def DOTMESH_NAMESPACE : String := "dotmesh"
def DOTMESH_CONFIG_MAP : String := "configuration"
def DOTMESH_NODE_LABEL : String := "dotmesh.io/node"
def DOTMESH_POD_ROLE_LABEL : String := "dotmesh.io/role"
def DOTMESH_ROLE_SERVER : String := "dotmesh-server"

def CONFIG_NODE_SELECTOR : String := "nodeSelector"
def CONFIG_UPGRADES_URL : String := "upgradesUrl"
def CONFIG_UPGRADES_INTERVAL_SECONDS : String := "upgradesIntervalSeconds"
def CONFIG_FLEXVOLUME_DRIVER_DIR : String := "flexvolumeDriverDir"
def CONFIG_POOL_NAME : String := "poolName"
def CONFIG_LOG_ADDRESS : String := "logAddress"
def CONFIG_MODE : String := "storageMode"
def CONFIG_MODE_LOCAL : String := "local"
def CONFIG_LOCAL_POOL_SIZE_PER_NODE : String := "local.poolSizePerNode"
def CONFIG_LOCAL_POOL_LOCATION : String := "local.poolLocation"

/-! ## Go map / set primitives

`lookup` is `v, ok := m[k]`; `mapSet` is `m[k] = v`; `setInsert` is
`s[k] = struct\x7b\x7d` on a `map[string]struct\x7b\x7d`; `setRemove` is
`delete(s, k)`. -/

def lookup : List (String × String) → String → Option String
  | [], _ => none
  | (k, v) :: rest, key => if k == key then some v else lookup rest key

def mapSet : List (String × String) → String → String → List (String × String)
  | [], k, v => [(k, v)]
  | (k0, v0) :: rest, k, v =>
    if k0 == k then (k, v) :: rest else (k0, v0) :: mapSet rest k v

def lookupB : List (String × Bool) → String → Option Bool
  | [], _ => none
  | (k, v) :: rest, key => if k == key then some v else lookupB rest key

def mapSetB : List (String × Bool) → String → Bool → List (String × Bool)
  | [], k, v => [(k, v)]
  | (k0, v0) :: rest, k, v =>
    if k0 == k then (k, v) :: rest else (k0, v0) :: mapSetB rest k v

def setInsert (s : List String) (x : String) : List String :=
  if s.contains x then s else s ++ [x]

def setRemove (s : List String) (x : String) : List String :=
  s.filter (fun y => y != x)

/-- Go reads `m[k]` on a `map[string]string` as the zero value `""` when
`k` is absent. -/
def getConfig (cfg : List (String × String)) (k : String) : String :=
  (lookup cfg k).getD ""

/-- Go reads `m[k]` on a `map[string]bool` as `false` when `k` is absent
(`dotmeshIsRunning[dotmeshName]`). -/
def isRunningIn (m : List (String × Bool)) (x : String) : Bool :=
  (lookupB m x).getD false

/-! ## Config resolver (`provideDefault`, `newDotmeshController`) -/

/-- `provideDefault` from the source: insert `deflt` under `key` unless
the map already has the key. -/
def provideDefault (m : List (String × String)) (key deflt : String) :
    List (String × String) :=
  match lookup m key with
  | some _ => m
  | none => m ++ [(key, deflt)]

/-- The defaults table, in the order `newDotmeshController` applies it. -/
def defaultsTable : List (String × String) :=
  [(CONFIG_NODE_SELECTOR, ""),
   (CONFIG_UPGRADES_URL, "https://checkpoint.dotmesh.com/"),
   (CONFIG_UPGRADES_INTERVAL_SECONDS, "14400"),
   (CONFIG_FLEXVOLUME_DRIVER_DIR, "/usr/libexec/kubernetes/kubelet-plugins/volume/exec"),
   (CONFIG_POOL_NAME, "pool"),
   (CONFIG_LOG_ADDRESS, ""),
   (CONFIG_MODE, CONFIG_MODE_LOCAL),
   (CONFIG_LOCAL_POOL_SIZE_PER_NODE, "10G"),
   (CONFIG_LOCAL_POOL_LOCATION, "/var/lib/dotmesh")]

def resolveConfig (data : List (String × String)) : List (String × String) :=
  defaultsTable.foldl (fun m kv => provideDefault m kv.1 kv.2) data

/-- The configuration a freshly constructed controller holds:
`fetched = none` models a failed ConfigMap fetch, in which case the
controller starts from an empty map and still resolves the defaults. -/
def newDotmeshController (fetched : Option (List (String × String))) :
    List (String × String) :=
  resolveConfig (fetched.getD [])

/-! ## Data model: nodes and pods (the fields the operator reads or writes) -/

structure Node where
  name : String
  labels : List (String × String) := []
  deriving DecidableEq, Repr

structure EnvVar where
  name : String
  value : String := ""
  valueFromFieldPath : Option String := none
  deriving DecidableEq, Repr

structure ContainerPort where
  name : String
  containerPort : Nat
  protocol : String
  deriving DecidableEq, Repr

structure VolumeMount where
  name : String
  mountPath : String
  deriving DecidableEq, Repr

structure Probe where
  httpGetPath : String
  httpGetPort : Nat
  initialDelaySeconds : Nat
  deriving DecidableEq, Repr

structure Container where
  name : String := ""
  image : String := ""
  command : List String := []
  privileged : Bool := false
  ports : List ContainerPort := []
  volumeMounts : List VolumeMount := []
  env : List EnvVar := []
  imagePullPolicy : String := ""
  livenessProbe : Option Probe := none
  resourceRequestCPU : String := ""
  deriving DecidableEq, Repr

structure Toleration where
  effect : String
  operator : String
  deriving DecidableEq, Repr

inductive VolumeSource where
  | hostPath (path : String)
  | emptyDir
  | secret (secretName : String)
  deriving DecidableEq, Repr

structure Volume where
  name : String
  source : VolumeSource
  deriving DecidableEq, Repr

/-- The pod fields the operator reads (spec + status) or writes.  Go zero
values stand in for fields a freshly built pod does not set: `phase` and
`nodeName` are `""` until the cluster fills them in. -/
structure Pod where
  name : String := ""
  namespaceName : String := ""
  labels : List (String × String) := []
  annotationList : List (String × String) := []
  hostPID : Bool := false
  nodeSelector : List (String × String) := []
  tolerations : List Toleration := []
  initContainers : List Container := []
  containers : List Container := []
  restartPolicy : String := ""
  serviceAccountName : String := ""
  volumes : List Volume := []
  phase : String := ""
  nodeName : String := ""
  deriving DecidableEq, Repr

def envLookup : List EnvVar → String → Option String
  | [], _ => none
  | e :: rest, key => if e.name == key then some e.value else envLookup rest key

/-- A pod as later observed by the watch cache: identical spec, with the
cluster-reported phase filled in. -/
def withPhase (p : Pod) (ph : String) : Pod := { p with phase := ph }

/-! ## Pod factory (`newDotmesh` in `process`, lines 583-677) -/

def dotmeshContainer (cfg : List (String × String)) (image : String) : Container :=
  { name := "dotmesh-outer"
    image := image
    command := ["/require_zfs.sh", "dotmesh-server"]
    privileged := true
    ports := [{ name := "dotmesh-api", containerPort := 32607, protocol := "TCP" }]
    volumeMounts :=
      [{ name := "docker-sock", mountPath := "/var/run/docker.sock" },
       { name := "run-docker", mountPath := "/run/docker" },
       { name := "var-lib", mountPath := "/var/lib" },
       { name := "system-lib", mountPath := "/system-lib/lib" },
       { name := "dotmesh-kernel-modules", mountPath := "/bundled-lib" },
       { name := "dotmesh-secret", mountPath := "/secret" },
       { name := "test-pools-dir", mountPath := "/dotmesh-test-pools" }]
    env :=
      [{ name := "HOSTNAME", valueFromFieldPath := some "spec.nodeName" },
       { name := "DOTMESH_ETCD_ENDPOINT",
         value := "http://dotmesh-etcd-cluster-client.dotmesh.svc.cluster.local:2379" },
       { name := "DOTMESH_DOCKER_IMAGE", value := image },
       { name := "PATH",
         value := "/bundled-lib/sbin:/usr/local/sbin:/usr/local/bin:/usr/sbin:/usr/bin:/sbin:/bin" },
       { name := "LD_LIBRARY_PATH", value := "/bundled-lib/lib:/bundled-lib/usr/lib/" },
       { name := "ALLOW_PUBLIC_REGISTRATION", value := "1" },
       { name := "INITIAL_ADMIN_PASSWORD_FILE", value := "/secret/dotmesh-admin-password.txt" },
       { name := "INITIAL_ADMIN_API_KEY_FILE", value := "/secret/dotmesh-api-key.txt" },
       { name := "USE_POOL_NAME", value := getConfig cfg CONFIG_POOL_NAME },
       { name := "USE_POOL_DIR", value := getConfig cfg CONFIG_LOCAL_POOL_LOCATION },
       { name := "POOL_SIZE", value := getConfig cfg CONFIG_LOCAL_POOL_SIZE_PER_NODE },
       { name := "LOG_ADDR", value := getConfig cfg CONFIG_LOG_ADDRESS },
       { name := "DOTMESH_UPGRADES_URL", value := getConfig cfg CONFIG_UPGRADES_URL },
       { name := "DOTMESH_UPGRADES_INTERVAL_SECONDS",
         value := getConfig cfg CONFIG_UPGRADES_INTERVAL_SECONDS },
       { name := "FLEXVOLUME_DRIVER_DIR", value := getConfig cfg CONFIG_FLEXVOLUME_DRIVER_DIR }]
    imagePullPolicy := "Always"
    livenessProbe := some { httpGetPath := "/status", httpGetPort := 32607,
                            initialDelaySeconds := 30 }
    resourceRequestCPU := "10m" }

def buildPod (cfg : List (String × String)) (image : String) (node : String) : Pod :=
  { name := "dotmesh-" ++ node
    namespaceName := "dotmesh"
    labels := [(DOTMESH_POD_ROLE_LABEL, DOTMESH_ROLE_SERVER)]
    annotationList := []
    hostPID := true
    nodeSelector := [(DOTMESH_NODE_LABEL, node)]
    tolerations := [{ effect := "NoSchedule", operator := "Exists" }]
    initContainers := []
    containers := [dotmeshContainer cfg image]
    restartPolicy := "Never"
    serviceAccountName := "dotmesh"
    volumes :=
      [{ name := "test-pools-dir", source := .hostPath "/dotmesh-test-pools" },
       { name := "run-docker", source := .hostPath "/var/run/docker" },
       { name := "docker-sock", source := .hostPath "/var/run/docker.sock" },
       { name := "var-lib", source := .hostPath "/var/lib" },
       { name := "system-lib", source := .hostPath "/lib" },
       { name := "dotmesh-kernel-modules", source := .emptyDir },
       { name := "dotmesh-secret", source := .secret "dotmesh" }] }

/-! ## Step A: node labelling and node sets (`process`, lines 363-399) -/

/-- `labelName, ok := node.Labels[DOTMESH_NODE_LABEL]; !ok || labelName != nodeName`. -/
def needsLabel (n : Node) : Bool :=
  match lookup n.labels DOTMESH_NODE_LABEL with
  | none => true
  | some l => l != n.name

/-- The deep-copied node with the identity label set to the node's name,
as sent to the cluster API. -/
def labelNode (n : Node) : Node :=
  { n with labels := mapSet n.labels DOTMESH_NODE_LABEL n.name }

/-- The node-labelling loop: returns the node updates attempted (in
order) and whether an update error aborted the pass.  `failU` decides
which update calls the cluster API rejects; on the first rejection the
pass returns the error immediately. -/
def labelNodes (failU : String → Bool) : List Node → List Node × Bool
  | [] => ([], false)
  | n :: rest =>
    if needsLabel n then
      if failU n.name then ([labelNode n], true)
      else
        let r := labelNodes failU rest
        (labelNode n :: r.1, r.2)
    else labelNodes failU rest

/-- `nodeLabel := node.ObjectMeta.Labels[DOTMESH_NODE_LABEL]` — the Go
map read yields `""` for a node that does not carry the label yet.  Note
the loop reads the *cached* node objects, not the deep copies updated
through the API. -/
def nodeLabelOf (n : Node) : String :=
  (lookup n.labels DOTMESH_NODE_LABEL).getD ""

/-- `validNodes` (and the initial `undottedNodes`, built identically). -/
def buildNodeSet (nodes : List Node) : List String :=
  nodes.foldl (fun acc n => setInsert acc (nodeLabelOf n)) []

/-! ## Step B: pod classification (`process`, lines 410-503) -/

/-- What the classification loop decides for one pod: mark to kill
without suspending any node, mark to kill and suspend the bound node, or
accept as healthy (striking the bound node off `undottedNodes`). -/
inductive Verdict where
  | killOnly
  | killSuspend (bound : String)
  | healthy (bound : String)
  deriving DecidableEq, Repr

def Verdict.boundIfHealthy : Verdict → Option String
  | .healthy b => some b
  | _ => none

/-- The checks of the classification loop, in source order: missing
node-selector entry; container count ≠ 1; wrong image; scheduled on a
node other than the bound one; bound node not in `validNodes` (kill
without suspending); phase `Failed`; otherwise healthy. -/
def classifyVerdict (valid : List String) (image : String) (p : Pod) : Verdict :=
  match lookup p.nodeSelector DOTMESH_NODE_LABEL with
  | none => .killOnly
  | some bound =>
    if p.containers.length != 1 then .killSuspend bound
    else if (p.containers.headD {}).image != image then .killSuspend bound
    else if p.nodeName != "" && p.nodeName != bound then .killSuspend bound
    else if !(valid.contains bound) then .killOnly
    else if p.phase == "Failed" then .killSuspend bound
    else .healthy bound

structure ClassifyState where
  toKill : List String := []
  isRunning : List (String × Bool) := []
  runningPodCount : Nat := 0
  suspended : List String := []
  undotted : List String := []
  deriving DecidableEq, Repr

def applyVerdict (st : ClassifyState) (p : Pod) : Verdict → ClassifyState
  | .killOnly => { st with toKill := setInsert st.toKill p.name }
  | .killSuspend b =>
    { st with toKill := setInsert st.toKill p.name,
              suspended := setInsert st.suspended b }
  | .healthy b => { st with undotted := setRemove st.undotted b }

/-- One iteration of the classification loop: record the running status
(this happens before any check), then apply the verdict. -/
def classifyPod (valid : List String) (image : String) (st : ClassifyState)
    (p : Pod) : ClassifyState :=
  let isRun := p.phase == "Running"
  let st1 := { st with
    isRunning := mapSetB st.isRunning p.name isRun,
    runningPodCount := if isRun then st.runningPodCount + 1 else st.runningPodCount }
  applyVerdict st1 p (classifyVerdict valid image p)

/-- The whole classification loop, starting with empty kill/suspended
sets and `undottedNodes` initialised to `validNodes`. -/
def classifyAll (valid : List String) (image : String) (pods : List Pod) :
    ClassifyState :=
  pods.foldl (classifyPod valid image) { undotted := valid }

/-! ## Step C: rate-limited deletion (`process`, lines 531-557) -/

/-- `int(CLUSTER_MINIMUM_RATIO * float32(len(validNodes)))` with the
ratio 0.75: the float32 product truncates to `3*n/4` (exact whenever
`3*n` fits the 24-bit float32 mantissa, i.e. for every feasible cluster
size). -/
def clusterMinimumPopulation (nValid : Nat) : Nat :=
  3 * nValid / 4

/-- The deletion loop over `dotmeshesToKill`: a pod is deleted when it is
not running or the running population still exceeds the minimum; deleting
a running pod decrements the population.  Returns the attempted
deletions and the ones whose API call failed (failures are logged and do
not stop the loop). -/
def deletePass (isRun failD : String → Bool) (minPop : Nat) :
    List String → Nat → List String × List String
  | [], _ => ([], [])
  | d :: rest, pop =>
    if !isRun d || pop > minPop then
      let r := deletePass isRun failD minPop rest (if isRun d then pop - 1 else pop)
      (d :: r.1, if failD d then d :: r.2 else r.2)
    else deletePass isRun failD minPop rest pop

/-! ## Step D: creation (`process`, lines 566-684) -/

/-- The creation loop over `undottedNodes`: skip suspended nodes,
otherwise build and create the pod.  Returns the attempted creations and
the node identities whose create call failed (failures are logged and do
not stop the loop). -/
def createPass (cfg : List (String × String)) (image : String)
    (failC : String → Bool) (suspended : List String) :
    List String → List Pod × List String
  | [] => ([], [])
  | n :: rest =>
    if suspended.contains n then createPass cfg image failC suspended rest
    else
      let r := createPass cfg image failC suspended rest
      (buildPod cfg image n :: r.1, if failC n then n :: r.2 else r.2)

/-! ## The reconcile pass -/

structure ClusterCache where
  nodes : List Node := []
  pods : List Pod := []
  deriving DecidableEq, Repr

/-- Every cluster-mutating API call one `process` pass attempts, plus
which individual delete/create calls failed and whether a node-update
failure aborted the pass early. -/
structure PassResult where
  nodeUpdates : List Node := []
  deletions : List String := []
  deleteErrors : List String := []
  creations : List Pod := []
  createErrors : List String := []
  aborted : Bool := false
  deriving DecidableEq, Repr

/-- The classification state the pass computes from its caches. -/
def passClassify (image : String) (cache : ClusterCache) : ClassifyState :=
  classifyAll (buildNodeSet cache.nodes) image cache.pods

/-- One reconcile pass (`process`).  `failU`, `failD`, `failC` decide
which node-update, pod-delete and pod-create API calls fail. -/
def process (cfg : List (String × String)) (image : String)
    (failU failD failC : String → Bool) (cache : ClusterCache) : PassResult :=
  let lab := labelNodes failU cache.nodes
  if lab.2 then
    { nodeUpdates := lab.1, aborted := true }
  else
    let valid := buildNodeSet cache.nodes
    let st := passClassify image cache
    let del := deletePass (isRunningIn st.isRunning) failD
      (clusterMinimumPopulation valid.length) st.toKill st.runningPodCount
    let cre := createPass cfg image failC st.suspended st.undotted
    { nodeUpdates := lab.1, deletions := del.1, deleteErrors := del.2,
      creations := cre.1, createErrors := cre.2, aborted := false }

/-- A failure oracle under which every API call succeeds. -/
def noFail : String → Bool := fun _ => false

/-! ## Concrete cluster states used as witnesses and counterexamples -/

/-- Cold start: three unlabelled nodes, no pods. -/
def coldStart : ClusterCache :=
  { nodes := [{ name := "n1" }, { name := "n2" }, { name := "n3" }], pods := [] }

def labelledNode (i : String) : Node := { name := i, labels := [(DOTMESH_NODE_LABEL, i)] }

/-- A pod running image `img`, bound to and scheduled on node `i`. -/
def runningPodOn (img i : String) : Pod :=
  { name := "dotmesh-" ++ i, nodeSelector := [(DOTMESH_NODE_LABEL, i)],
    containers := [{ image := img }], phase := "Running", nodeName := i }

/-- Rolling upgrade: four labelled nodes, four running pods all on the
old image while the operator is configured with `"new-image"`. -/
def rollState : ClusterCache :=
  { nodes := [labelledNode "n1", labelledNode "n2", labelledNode "n3", labelledNode "n4"],
    pods := [runningPodOn "old-image" "n1", runningPodOn "old-image" "n2",
             runningPodOn "old-image" "n3", runningPodOn "old-image" "n4"] }

/-- `rollState` with the first pass's sole deletion applied and no other
cluster change. -/
def rollState2 : ClusterCache :=
  { rollState with pods := rollState.pods.filter (fun p => p.name != "dotmesh-n1") }

/-- A running pod bound to node `"n9"`, which is not in the cluster. -/
def gonePod : Pod :=
  { name := "dotmesh-gone", nodeSelector := [(DOTMESH_NODE_LABEL, "n9")],
    containers := [{ image := "img" }], phase := "Running", nodeName := "n9" }

/-- Four labelled nodes; two healthy running pods; one running pod bound
to the vanished node `"n9"`.  Running population 3 equals the minimum
`⌊0.75·4⌋ = 3`. -/
def goneState : ClusterCache :=
  { nodes := [labelledNode "n1", labelledNode "n2", labelledNode "n3", labelledNode "n4"],
    pods := [runningPodOn "img" "n1", runningPodOn "img" "n2", gonePod] }

/-- A converged one-node cluster: the node is labelled and carries a
healthy running pod. -/
def convState : ClusterCache :=
  { nodes := [labelledNode "n1"], pods := [runningPodOn "img" "n1"] }

/-! ## Lookup lemmas for the config resolver -/

theorem lookup_append_of_some {m l : List (String × String)} {k v : String}
    (h : lookup m k = some v) : lookup (m ++ l) k = some v := by
  induction m with
  | nil => simp [lookup] at h
  | cons hd tl ih =>
    obtain ⟨k0, v0⟩ := hd
    simp only [lookup, List.cons_append] at h ⊢
    cases hk : (k0 == k) with
    | true => simpa [hk] using h
    | false =>
      rw [hk] at h
      simp only [hk, if_neg Bool.false_ne_true] at h ⊢
      exact ih h

theorem lookup_append_of_none {m l : List (String × String)} {k : String}
    (h : lookup m k = none) : lookup (m ++ l) k = lookup l k := by
  induction m with
  | nil => simp [lookup]
  | cons hd tl ih =>
    obtain ⟨k0, v0⟩ := hd
    simp only [lookup, List.cons_append] at h ⊢
    cases hk : (k0 == k) with
    | true => simp [hk] at h
    | false =>
      rw [hk] at h
      simp only [hk, if_neg Bool.false_ne_true] at h ⊢
      exact ih h

theorem lookup_provideDefault_of_some {m : List (String × String)}
    {k v : String} (key d : String) (h : lookup m k = some v) :
    lookup (provideDefault m key d) k = some v := by
  unfold provideDefault
  cases hkey : lookup m key with
  | some w => exact h
  | none => exact lookup_append_of_some h

theorem lookup_provideDefault_self (m : List (String × String)) (k d : String) :
    lookup (provideDefault m k d) k = some ((lookup m k).getD d) := by
  unfold provideDefault
  cases hk : lookup m k with
  | some v => simp [hk]
  | none =>
    rw [lookup_append_of_none hk]
    simp [lookup]

theorem lookup_provideDefault_other {key k : String}
    (m : List (String × String)) (d : String) (hne : key ≠ k) :
    lookup (provideDefault m key d) k = lookup m k := by
  unfold provideDefault
  cases hkey : lookup m key with
  | some w => rfl
  | none =>
    cases hk : lookup m k with
    | some v => exact lookup_append_of_some hk
    | none =>
      rw [lookup_append_of_none hk]
      simp [lookup, hne]

theorem foldl_provideDefault_of_some {k v : String}
    (table : List (String × String)) {m : List (String × String)}
    (h : lookup m k = some v) :
    lookup (table.foldl (fun m kv => provideDefault m kv.1 kv.2) m) k = some v := by
  induction table generalizing m with
  | nil => exact h
  | cons kv rest ih =>
    simp only [List.foldl_cons]
    exact ih (lookup_provideDefault_of_some kv.1 kv.2 h)

theorem foldl_provideDefault_lookup (table : List (String × String)) :
    ∀ (data : List (String × String)) (k d : String),
    table.Pairwise (fun a b => a.1 ≠ b.1) → (k, d) ∈ table →
    lookup (table.foldl (fun m kv => provideDefault m kv.1 kv.2) data) k
      = some ((lookup data k).getD d) := by
  induction table with
  | nil => intro data k d _ hmem; simp at hmem
  | cons kv rest ih =>
    intro data k d hpair hmem
    simp only [List.foldl_cons]
    rcases List.mem_cons.mp hmem with heq | htail
    · subst heq
      exact foldl_provideDefault_of_some rest (lookup_provideDefault_self data k d)
    · have hne : kv.1 ≠ k := by
        have := (List.pairwise_cons.mp hpair).1 (k, d) htail
        exact this
      rw [ih (provideDefault data kv.1 kv.2) k d (List.pairwise_cons.mp hpair).2 htail,
        lookup_provideDefault_other data kv.2 hne]

/-- C7: after construction, every key of the defaults table resolves to
the ConfigMap's value when the ConfigMap supplied it and to the table's
default otherwise; when the ConfigMap fetch fails, construction still
succeeds with every key at its default. -/
theorem C7_config_resolution (data : List (String × String)) (k d : String)
    (hmem : (k, d) ∈ defaultsTable) :
    lookup (newDotmeshController (some data)) k = some ((lookup data k).getD d) ∧
    lookup (newDotmeshController none) k = some d := by
  have hpair : defaultsTable.Pairwise (fun a b => a.1 ≠ b.1) := by decide
  constructor
  · exact foldl_provideDefault_lookup defaultsTable data k d hpair hmem
  · have := foldl_provideDefault_lookup defaultsTable [] k d hpair hmem
    simpa [lookup] using this

/-- Witness for C7 at `local.poolSizePerNode`: a ConfigMap that supplies
only `poolName` resolves the pool size to the default `"10G"`, as does a
failed fetch. -/
theorem C7_config_resolution_witness :
    ((CONFIG_LOCAL_POOL_SIZE_PER_NODE, "10G") ∈ defaultsTable) ∧
    (lookup (newDotmeshController (some [("poolName", "mypool")]))
        CONFIG_LOCAL_POOL_SIZE_PER_NODE
      = some ((lookup [("poolName", "mypool")] CONFIG_LOCAL_POOL_SIZE_PER_NODE).getD "10G") ∧
     lookup (newDotmeshController none) CONFIG_LOCAL_POOL_SIZE_PER_NODE = some "10G") :=
  ⟨by decide, C7_config_resolution [("poolName", "mypool")]
    CONFIG_LOCAL_POOL_SIZE_PER_NODE "10G" (by decide)⟩

/-- C8: the pod built for node identity `n` is named `dotmesh-<n>`,
carries the server role label, a node selector binding it to the
identity label with value `n`, exactly one privileged container whose
liveness probe is an HTTP GET of `/status` on TCP port 32607 with a
30-second initial delay, restart policy `Never`, and the seven
config-sourced environment variables equal to the configuration's
values; with an empty ConfigMap, `POOL_SIZE` is `"10G"` and
`USE_POOL_DIR` is `"/var/lib/dotmesh"`. -/
theorem C8_pod_factory (cfg : List (String × String)) (image n : String) :
    (buildPod cfg image n).name = "dotmesh-" ++ n ∧
    lookup (buildPod cfg image n).labels DOTMESH_POD_ROLE_LABEL
      = some DOTMESH_ROLE_SERVER ∧
    lookup (buildPod cfg image n).nodeSelector DOTMESH_NODE_LABEL = some n ∧
    (buildPod cfg image n).containers = [dotmeshContainer cfg image] ∧
    (dotmeshContainer cfg image).privileged = true ∧
    (dotmeshContainer cfg image).ports
      = [{ name := "dotmesh-api", containerPort := 32607, protocol := "TCP" }] ∧
    (dotmeshContainer cfg image).livenessProbe
      = some { httpGetPath := "/status", httpGetPort := 32607, initialDelaySeconds := 30 } ∧
    (buildPod cfg image n).restartPolicy = "Never" ∧
    envLookup (dotmeshContainer cfg image).env "USE_POOL_NAME"
      = some (getConfig cfg CONFIG_POOL_NAME) ∧
    envLookup (dotmeshContainer cfg image).env "USE_POOL_DIR"
      = some (getConfig cfg CONFIG_LOCAL_POOL_LOCATION) ∧
    envLookup (dotmeshContainer cfg image).env "POOL_SIZE"
      = some (getConfig cfg CONFIG_LOCAL_POOL_SIZE_PER_NODE) ∧
    envLookup (dotmeshContainer cfg image).env "LOG_ADDR"
      = some (getConfig cfg CONFIG_LOG_ADDRESS) ∧
    envLookup (dotmeshContainer cfg image).env "DOTMESH_UPGRADES_URL"
      = some (getConfig cfg CONFIG_UPGRADES_URL) ∧
    envLookup (dotmeshContainer cfg image).env "DOTMESH_UPGRADES_INTERVAL_SECONDS"
      = some (getConfig cfg CONFIG_UPGRADES_INTERVAL_SECONDS) ∧
    envLookup (dotmeshContainer cfg image).env "FLEXVOLUME_DRIVER_DIR"
      = some (getConfig cfg CONFIG_FLEXVOLUME_DRIVER_DIR) ∧
    envLookup (dotmeshContainer (newDotmeshController (some [])) image).env "POOL_SIZE"
      = some "10G" ∧
    envLookup (dotmeshContainer (newDotmeshController (some [])) image).env "USE_POOL_DIR"
      = some "/var/lib/dotmesh" := by
  refine ⟨rfl, rfl, rfl, rfl, rfl, rfl, rfl, rfl, rfl, rfl, rfl, rfl, rfl, rfl, rfl,
    rfl, rfl⟩

/-- C2 counterexample: on the cold start with three unlabelled nodes the
pass creates exactly one pod, named `dotmesh-`, not the three pods
`dotmesh-n1`, `dotmesh-n2`, `dotmesh-n3` the claim states. -/
theorem C2_cold_start_counterexample :
    (process (resolveConfig []) "img" noFail noFail noFail coldStart).creations.map Pod.name
      = ["dotmesh-"] ∧
    (process (resolveConfig []) "img" noFail noFail noFail coldStart).creations.length ≠ 3 := by
  constructor
  · rfl
  · decide

/-- C2 amended: on the cold start the pass issues a label update for
each of the three nodes setting the identity label to the node's own
name, but — because `validNodes` is built from the *cached* pre-update
labels, which are all empty — it creates exactly one pod, named
`dotmesh-` and bound to the empty identity; the pods `dotmesh-n1..n3`
only appear on a later pass once the relabelled nodes are observed. -/
theorem C2_cold_start_amended :
    buildNodeSet coldStart.nodes = [""] ∧
    process (resolveConfig []) "img" noFail noFail noFail coldStart =
      { nodeUpdates := [{ name := "n1", labels := [(DOTMESH_NODE_LABEL, "n1")] },
                        { name := "n2", labels := [(DOTMESH_NODE_LABEL, "n2")] },
                        { name := "n3", labels := [(DOTMESH_NODE_LABEL, "n3")] }],
        deletions := [], deleteErrors := [],
        creations := [buildPod (resolveConfig []) "img" ""],
        createErrors := [], aborted := false } :=
  ⟨rfl, rfl⟩

/-! ## Lemmas about the deletion loop -/

theorem mem_deletePass_of_not_running (isRun failD : String → Bool) (minPop : Nat) :
    ∀ (ks : List String) (pop : Nat) (d : String), d ∈ ks → isRun d = false →
    d ∈ (deletePass isRun failD minPop ks pop).1 := by
  intro ks
  induction ks with
  | nil => intro pop d h _; simp at h
  | cons k rest ih =>
    intro pop d hmem hrun
    rcases List.mem_cons.mp hmem with heq | htail
    · subst heq
      simp only [deletePass, hrun, Bool.not_false, Bool.true_or, if_true]
      exact List.mem_cons_self _ _
    · simp only [deletePass]
      split
      · exact List.mem_cons_of_mem _ (ih _ d htail hrun)
      · exact ih _ d htail hrun

theorem deletePass_countP_le (isRun failD : String → Bool) (minPop : Nat) :
    ∀ (ks : List String) (pop : Nat),
    (deletePass isRun failD minPop ks pop).1.countP (fun d => isRun d) ≤ pop - minPop := by
  intro ks
  induction ks with
  | nil => intro pop; simp [deletePass]
  | cons k rest ih =>
    intro pop
    cases hrun : isRun k with
    | false =>
      have h1 := ih pop
      simp [deletePass, hrun, List.countP_cons]
      omega
    | true =>
      by_cases hpop : pop > minPop
      · have h1 := ih (pop - 1)
        simp [deletePass, hrun, hpop, List.countP_cons]
        omega
      · have h1 := ih pop
        simp [deletePass, hrun, hpop]
        exact h1

/-- One labelled node and a single non-running pod with no node
selector: the pod is marked to kill and deleted unconditionally. -/
def pendingKillState : ClusterCache :=
  { nodes := [labelledNode "n1"], pods := [{ name := "bad", phase := "Pending" }] }

/-- C1: in a single pass every marked pod that is not Running is deleted
unconditionally, and the number of Running pods deleted is at most
`max 0 (runningPods - ⌊0.75·|validNodes|⌋)`. -/
theorem C1_rate_limited_deletion (cfg : List (String × String)) (image : String)
    (failU failD failC : String → Bool) (cache : ClusterCache) :
    (∀ d, d ∈ (passClassify image cache).toKill →
      isRunningIn (passClassify image cache).isRunning d = false →
      (process cfg image failU failD failC cache).aborted = false →
      d ∈ (process cfg image failU failD failC cache).deletions) ∧
    (((process cfg image failU failD failC cache).deletions.countP
        (fun d => isRunningIn (passClassify image cache).isRunning d) : ℤ)
      ≤ max 0 (((passClassify image cache).runningPodCount : ℤ)
          - (clusterMinimumPopulation (buildNodeSet cache.nodes).length : ℤ))) := by
  cases hlab : (labelNodes failU cache.nodes).2 with
  | true =>
    constructor
    · intro d _ _ habort
      simp [process, hlab] at habort
    · simp [process, hlab]
  | false =>
    constructor
    · intro d hkill hrun _
      simp only [process, hlab, Bool.false_eq_true, if_false]
      exact mem_deletePass_of_not_running _ failD _ _ _ d hkill hrun
    · simp only [process, hlab, Bool.false_eq_true, if_false]
      have h1 := deletePass_countP_le (isRunningIn (passClassify image cache).isRunning)
        failD (clusterMinimumPopulation (buildNodeSet cache.nodes).length)
        (passClassify image cache).toKill (passClassify image cache).runningPodCount
      have h2 : ((deletePass (isRunningIn (passClassify image cache).isRunning) failD
          (clusterMinimumPopulation (buildNodeSet cache.nodes).length)
          (passClassify image cache).toKill
          (passClassify image cache).runningPodCount).1.countP
            (fun d => isRunningIn (passClassify image cache).isRunning d) : ℤ)
          ≤ (((passClassify image cache).runningPodCount
              - clusterMinimumPopulation (buildNodeSet cache.nodes).length : ℕ) : ℤ) := by
        exact_mod_cast h1
      refine h2.trans ?_
      rcases Nat.le_total (clusterMinimumPopulation (buildNodeSet cache.nodes).length)
        ((passClassify image cache).runningPodCount) with hle | hle
      · rw [Nat.cast_sub hle]
        exact le_max_right _ _
      · rw [Nat.sub_eq_zero_of_le hle]
        exact le_max_left 0 _

/-- Witness for C1: in `pendingKillState` the non-running pod `bad` is
marked to kill and indeed deleted by the pass. -/
theorem C1_rate_limited_deletion_witness :
    ("bad" ∈ (passClassify "img" pendingKillState).toKill ∧
     isRunningIn (passClassify "img" pendingKillState).isRunning "bad" = false ∧
     (process [] "img" noFail noFail noFail pendingKillState).aborted = false) ∧
    "bad" ∈ (process [] "img" noFail noFail noFail pendingKillState).deletions :=
  ⟨⟨by decide, by decide, by decide⟩,
   (C1_rate_limited_deletion [] "img" noFail noFail noFail pendingKillState).1 "bad"
     (by decide) (by decide) (by decide)⟩

/-! ## Set and classification lemmas -/

theorem contains_mem {s : List String} {x : String} : s.contains x = true ↔ x ∈ s := by
  simp

theorem setInsert_contains_self (s : List String) (x : String) :
    (setInsert s x).contains x = true := by
  unfold setInsert
  split
  · assumption
  · simp

theorem setInsert_contains_of {s : List String} {x : String} (y : String)
    (h : s.contains x = true) : (setInsert s y).contains x = true := by
  unfold setInsert
  split
  · exact h
  · exact contains_mem.mpr (List.mem_append.mpr (Or.inl (contains_mem.mp h)))

theorem contains_setInsert {s : List String} {x y : String}
    (h : (setInsert s y).contains x = true) : x = y ∨ s.contains x = true := by
  unfold setInsert at h
  split at h
  · exact Or.inr h
  · rcases contains_mem.mp h |> List.mem_append.mp with hs | hy
    · exact Or.inr (contains_mem.mpr hs)
    · simp at hy
      exact Or.inl hy

theorem contains_setRemove {s : List String} {x y : String}
    (h : (setRemove s y).contains x = true) : s.contains x = true ∧ x ≠ y := by
  unfold setRemove at h
  have hx := contains_mem.mp h
  rw [List.mem_filter] at hx
  refine ⟨contains_mem.mpr hx.1, ?_⟩
  have := hx.2
  simpa using this

/-- Unfolding `classifyVerdict` when the node-selector entry is absent. -/
theorem classifyVerdict_none {valid : List String} {image : String} {p : Pod}
    (hsel : lookup p.nodeSelector DOTMESH_NODE_LABEL = none) :
    classifyVerdict valid image p = .killOnly := by
  unfold classifyVerdict
  rw [hsel]

/-- Unfolding `classifyVerdict` when the node-selector entry is present. -/
theorem classifyVerdict_some {valid : List String} {image : String} {p : Pod}
    {bound : String}
    (hsel : lookup p.nodeSelector DOTMESH_NODE_LABEL = some bound) :
    classifyVerdict valid image p =
      (if p.containers.length != 1 then .killSuspend bound
       else if (p.containers.headD {}).image != image then .killSuspend bound
       else if p.nodeName != "" && p.nodeName != bound then .killSuspend bound
       else if !(valid.contains bound) then .killOnly
       else if p.phase == "Failed" then .killSuspend bound
       else .healthy bound) := by
  unfold classifyVerdict
  rw [hsel]

/-- A `killSuspend` verdict always carries the pod's bound node. -/
theorem killSuspend_sel {valid : List String} {image : String} {p : Pod} {b : String}
    (h : classifyVerdict valid image p = .killSuspend b) :
    lookup p.nodeSelector DOTMESH_NODE_LABEL = some b := by
  cases hsel : lookup p.nodeSelector DOTMESH_NODE_LABEL with
  | none => rw [classifyVerdict_none hsel] at h; simp at h
  | some bd =>
    rw [classifyVerdict_some hsel] at h
    split at h
    · simp only [Verdict.killSuspend.injEq] at h
      rw [h]
    · split at h
      · simp only [Verdict.killSuspend.injEq] at h
        rw [h]
      · split at h
        · simp only [Verdict.killSuspend.injEq] at h
          rw [h]
        · split at h
          · simp at h
          · split at h
            · simp only [Verdict.killSuspend.injEq] at h
              rw [h]
            · simp at h

/-- A `healthy` verdict certifies every classification check. -/
theorem healthy_verdict_props {valid : List String} {image : String} {p : Pod}
    {b : String} (h : classifyVerdict valid image p = .healthy b) :
    lookup p.nodeSelector DOTMESH_NODE_LABEL = some b ∧
    (∃ c, p.containers = [c] ∧ c.image = image) ∧
    (p.nodeName = "" ∨ p.nodeName = b) ∧
    valid.contains b = true ∧
    p.phase ≠ "Failed" := by
  cases hsel : lookup p.nodeSelector DOTMESH_NODE_LABEL with
  | none => rw [classifyVerdict_none hsel] at h; simp at h
  | some bd =>
    rw [classifyVerdict_some hsel] at h
    split at h
    · simp at h
    · split at h
      · simp at h
      · split at h
        · simp at h
        · split at h
          · simp at h
          · split at h
            · simp at h
            · rename_i hlen himg hnode hvalid hfail
              simp only [Verdict.healthy.injEq] at h
              subst h
              have hlen1 : p.containers.length = 1 := by simpa using hlen
              obtain ⟨c, hc⟩ := List.length_eq_one.mp hlen1
              refine ⟨rfl, ⟨c, hc, by simpa [hc] using himg⟩, ?_,
                by simpa using hvalid, by simpa using hfail⟩
              have h1 : ¬(p.nodeName ≠ "" ∧ p.nodeName ≠ bd) := by
                simpa using hnode
              rcases not_and_or.mp h1 with h2 | h2
              · exact Or.inl (not_not.mp h2)
              · exact Or.inr (not_not.mp h2)

theorem classifyPod_toKill_killOnly {valid : List String} {image : String}
    {st : ClassifyState} {p : Pod} (hv : classifyVerdict valid image p = .killOnly) :
    (classifyPod valid image st p).toKill = setInsert st.toKill p.name := by
  simp only [classifyPod, hv, applyVerdict]

theorem classifyPod_toKill_killSuspend {valid : List String} {image : String}
    {st : ClassifyState} {p : Pod} {b : String}
    (hv : classifyVerdict valid image p = .killSuspend b) :
    (classifyPod valid image st p).toKill = setInsert st.toKill p.name := by
  simp only [classifyPod, hv, applyVerdict]

theorem classifyPod_suspended_killOnly {valid : List String} {image : String}
    {st : ClassifyState} {p : Pod} (hv : classifyVerdict valid image p = .killOnly) :
    (classifyPod valid image st p).suspended = st.suspended := by
  simp only [classifyPod, hv, applyVerdict]

theorem classifyPod_suspended_killSuspend {valid : List String} {image : String}
    {st : ClassifyState} {p : Pod} {b : String}
    (hv : classifyVerdict valid image p = .killSuspend b) :
    (classifyPod valid image st p).suspended = setInsert st.suspended b := by
  simp only [classifyPod, hv, applyVerdict]

theorem classifyPod_suspended_healthy {valid : List String} {image : String}
    {st : ClassifyState} {p : Pod} {b : String}
    (hv : classifyVerdict valid image p = .healthy b) :
    (classifyPod valid image st p).suspended = st.suspended := by
  simp only [classifyPod, hv, applyVerdict]

theorem classifyPod_undotted_healthy {valid : List String} {image : String}
    {st : ClassifyState} {p : Pod} {b : String}
    (hv : classifyVerdict valid image p = .healthy b) :
    (classifyPod valid image st p).undotted = setRemove st.undotted b := by
  simp only [classifyPod, hv, applyVerdict]

theorem classifyPod_toKill_self {valid : List String} {image : String}
    {st : ClassifyState} {p : Pod}
    (hv : (classifyVerdict valid image p).boundIfHealthy = none) :
    (classifyPod valid image st p).toKill.contains p.name = true := by
  cases h : classifyVerdict valid image p with
  | killOnly =>
    rw [classifyPod_toKill_killOnly h]
    exact setInsert_contains_self _ _
  | killSuspend b =>
    rw [classifyPod_toKill_killSuspend h]
    exact setInsert_contains_self _ _
  | healthy b => rw [h] at hv; simp [Verdict.boundIfHealthy] at hv

theorem classifyPod_toKill_mono {valid : List String} {image : String}
    {st : ClassifyState} {p : Pod} {x : String}
    (h : st.toKill.contains x = true) :
    (classifyPod valid image st p).toKill.contains x = true := by
  cases hv : classifyVerdict valid image p with
  | killOnly =>
    rw [classifyPod_toKill_killOnly hv]
    exact setInsert_contains_of _ h
  | killSuspend b =>
    rw [classifyPod_toKill_killSuspend hv]
    exact setInsert_contains_of _ h
  | healthy b => simpa only [classifyPod, hv, applyVerdict] using h

theorem classifyFold_toKill_mono (valid : List String) (image : String) :
    ∀ (pods : List Pod) (st : ClassifyState) {x : String},
    st.toKill.contains x = true →
    ((pods.foldl (classifyPod valid image) st).toKill.contains x = true) := by
  intro pods
  induction pods with
  | nil => intro st x h; exact h
  | cons q rest ih =>
    intro st x h
    rw [List.foldl_cons]
    exact ih _ (classifyPod_toKill_mono h)

/-- Every pod that survives the classification fold unmarked got a
`healthy` verdict. -/
theorem classifyFold_not_killed (valid : List String) (image : String) :
    ∀ (pods : List Pod) (st : ClassifyState) (p : Pod), p ∈ pods →
    ((pods.foldl (classifyPod valid image) st).toKill.contains p.name) = false →
    ∃ b, classifyVerdict valid image p = .healthy b := by
  intro pods
  induction pods with
  | nil => intro st p h; simp at h
  | cons q rest ih =>
    intro st p hmem hnk
    rw [List.foldl_cons] at hnk
    rcases List.mem_cons.mp hmem with heq | htail
    · subst heq
      cases hv : classifyVerdict valid image p with
      | healthy b => exact ⟨b, rfl⟩
      | killOnly =>
        have h1 := @classifyPod_toKill_self valid image st p (by rw [hv]; rfl)
        have h2 := classifyFold_toKill_mono valid image rest _ h1
        rw [h2] at hnk
        exact Bool.noConfusion hnk
      | killSuspend b =>
        have h1 := @classifyPod_toKill_self valid image st p (by rw [hv]; rfl)
        have h2 := classifyFold_toKill_mono valid image rest _ h1
        rw [h2] at hnk
        exact Bool.noConfusion hnk
    · exact ih _ p htail hnk

/-- The deletion loop only deletes pods that were marked to kill. -/
theorem deletePass_subset (isRun failD : String → Bool) (minPop : Nat) :
    ∀ (ks : List String) (pop : Nat) (d : String),
    d ∈ (deletePass isRun failD minPop ks pop).1 → d ∈ ks := by
  intro ks
  induction ks with
  | nil => intro pop d h; simp [deletePass] at h
  | cons k rest ih =>
    intro pop d h
    revert h
    simp only [deletePass]
    split
    · intro h
      rcases List.mem_cons.mp h with heq | ht
      · exact heq ▸ List.mem_cons_self _ _
      · exact List.mem_cons_of_mem _ (ih _ d ht)
    · intro h
      exact List.mem_cons_of_mem _ (ih _ d h)

/-- C3 counterexample: in `goneState` the running pod `dotmesh-gone` is
bound to the vanished node `n9` and is marked to kill, but because the
running population (3) does not exceed the minimum (3), the deletion
loop spares it: it is *not* deleted in that pass, contradicting the
claimed unconditional deletion. -/
theorem C3_invalid_node_counterexample :
    (passClassify "img" goneState).toKill = ["dotmesh-gone"] ∧
    lookup gonePod.nodeSelector DOTMESH_NODE_LABEL = some "n9" ∧
    ((buildNodeSet goneState.nodes).contains "n9") = false ∧
    gonePod.phase = "Running" ∧
    (process [] "img" noFail noFail noFail goneState).deletions = [] := by
  refine ⟨by decide, by decide, by decide, rfl, by decide⟩

/-- C3 amended: a pod that reaches the valid-node check (it has the
selector entry, exactly one container with the configured image, and
its scheduled node is empty or equals its bound node) and whose bound
node is absent from `validNodes` is marked to kill without suspending
any node; its deletion then follows the same rate limit as every other
marked pod — it is deleted unconditionally only when it is not
Running. -/
theorem C3_invalid_node_amended (valid : List String) (image : String)
    (st : ClassifyState) (p : Pod) (b : String)
    (hsel : lookup p.nodeSelector DOTMESH_NODE_LABEL = some b)
    (hlen : p.containers.length = 1)
    (himg : (p.containers.headD {}).image = image)
    (hnode : p.nodeName = "" ∨ p.nodeName = b)
    (hvalid : valid.contains b = false) :
    classifyVerdict valid image p = .killOnly ∧
    (classifyPod valid image st p).toKill = setInsert st.toKill p.name ∧
    (classifyPod valid image st p).suspended = st.suspended ∧
    (classifyPod valid image st p).undotted = st.undotted ∧
    (∀ (isRun failD : String → Bool) (minPop : Nat) (ks : List String) (pop : Nat),
      p.name ∈ ks → isRun p.name = false →
      p.name ∈ (deletePass isRun failD minPop ks pop).1) := by
  have hv : classifyVerdict valid image p = .killOnly := by
    obtain ⟨c, hc⟩ := List.length_eq_one.mp hlen
    have himgc : c.image = image := by
      rw [hc] at himg
      simpa using himg
    have hnmem : b ∉ valid := by simpa using hvalid
    rw [classifyVerdict_some hsel]
    rcases hnode with h | h <;> simp [hlen, hc, h, hnmem, himgc]
  refine ⟨hv, classifyPod_toKill_killOnly hv, classifyPod_suspended_killOnly hv,
    ?_, ?_⟩
  · simp only [classifyPod, hv, applyVerdict]
  · intro isRun failD minPop ks pop hk hr
    exact mem_deletePass_of_not_running isRun failD minPop ks pop p.name hk hr

/-- Witness for the amended C3 at `gonePod` with `validNodes = [n1]`. -/
theorem C3_invalid_node_amended_witness :
    (lookup gonePod.nodeSelector DOTMESH_NODE_LABEL = some "n9" ∧
     gonePod.containers.length = 1 ∧
     (gonePod.containers.headD {}).image = "img" ∧
     gonePod.nodeName = "n9" ∧
     (["n1"].contains "n9") = false) ∧
    (classifyVerdict ["n1"] "img" gonePod = .killOnly ∧
     (classifyPod ["n1"] "img" {} gonePod).toKill
       = setInsert ({} : ClassifyState).toKill gonePod.name ∧
     (classifyPod ["n1"] "img" {} gonePod).suspended = ({} : ClassifyState).suspended ∧
     (classifyPod ["n1"] "img" {} gonePod).undotted = ({} : ClassifyState).undotted ∧
     (∀ (isRun failD : String → Bool) (minPop : Nat) (ks : List String) (pop : Nat),
       gonePod.name ∈ ks → isRun gonePod.name = false →
       gonePod.name ∈ (deletePass isRun failD minPop ks pop).1)) :=
  ⟨⟨by decide, by decide, by decide, by decide, by decide⟩,
   C3_invalid_node_amended ["n1"] "img" {} gonePod "n9" (by decide) (by decide)
     (by decide) (Or.inr (by decide)) (by decide)⟩

/-- C5 counterexample: in `rollState` (four running pods on the old
image) the pass deletes only `dotmesh-n1`; the pod `dotmesh-n2`
survives the pass although its container image is not the configured
one, contradicting the claimed survivor invariant. -/
theorem C5_survivor_counterexample :
    runningPodOn "old-image" "n2" ∈ rollState.pods ∧
    (process [] "new-image" noFail noFail noFail rollState).deletions = ["dotmesh-n1"] ∧
    (runningPodOn "old-image" "n2").name
      ∉ (process [] "new-image" noFail noFail noFail rollState).deletions ∧
    (runningPodOn "old-image" "n2").containers.map Container.image = ["old-image"] ∧
    "old-image" ≠ "new-image" := by
  refine ⟨by decide, by decide, by decide, rfl, by decide⟩

/-- C5 amended: every observed pod that the pass did not *mark to kill*
passed all classification checks (one container with the configured
image, bound to a valid node, scheduled node empty or equal to the
bound one, phase not Failed); and every deleted pod was marked, so a
surviving marked pod was merely spared by the deletion rate limit. -/
theorem C5_survivor_amended (image : String) (cache : ClusterCache) (p : Pod)
    (hmem : p ∈ cache.pods)
    (hnk : (passClassify image cache).toKill.contains p.name = false) :
    (∃ b, classifyVerdict (buildNodeSet cache.nodes) image p = .healthy b ∧
      lookup p.nodeSelector DOTMESH_NODE_LABEL = some b ∧
      (∃ c, p.containers = [c] ∧ c.image = image) ∧
      (p.nodeName = "" ∨ p.nodeName = b) ∧
      (buildNodeSet cache.nodes).contains b = true ∧
      p.phase ≠ "Failed") ∧
    (∀ (cfg : List (String × String)) (failU failD failC : String → Bool) (d : String),
      d ∈ (process cfg image failU failD failC cache).deletions →
      d ∈ (passClassify image cache).toKill) := by
  constructor
  · obtain ⟨b, hb⟩ := classifyFold_not_killed (buildNodeSet cache.nodes) image
      cache.pods { undotted := buildNodeSet cache.nodes } p hmem hnk
    exact ⟨b, hb, healthy_verdict_props hb⟩
  · intro cfg failU failD failC d hd
    cases hlab : (labelNodes failU cache.nodes).2 with
    | false =>
      simp only [process, hlab, Bool.false_eq_true, if_false] at hd
      exact deletePass_subset _ _ _ _ _ d hd
    | true => simp [process, hlab] at hd

/-- Witness for the amended C5: the healthy pod of `convState` is not
marked and indeed satisfies every check. -/
theorem C5_survivor_amended_witness :
    (runningPodOn "img" "n1" ∈ convState.pods ∧
     (passClassify "img" convState).toKill.contains (runningPodOn "img" "n1").name
       = false) ∧
    ((∃ b, classifyVerdict (buildNodeSet convState.nodes) "img" (runningPodOn "img" "n1")
        = .healthy b ∧
      lookup (runningPodOn "img" "n1").nodeSelector DOTMESH_NODE_LABEL = some b ∧
      (∃ c, (runningPodOn "img" "n1").containers = [c] ∧ c.image = "img") ∧
      ((runningPodOn "img" "n1").nodeName = "" ∨ (runningPodOn "img" "n1").nodeName = b) ∧
      (buildNodeSet convState.nodes).contains b = true ∧
      (runningPodOn "img" "n1").phase ≠ "Failed") ∧
     (∀ (cfg : List (String × String)) (failU failD failC : String → Bool) (d : String),
       d ∈ (process cfg "img" failU failD failC convState).deletions →
       d ∈ (passClassify "img" convState).toKill)) :=
  ⟨⟨by decide, by decide⟩,
   C5_survivor_amended "img" convState (runningPodOn "img" "n1") (by decide) (by decide)⟩

/-- C9: every node in the suspended set is the bound node of some pod
marked to kill in the same pass, and a pod killed with a `killOnly`
verdict (missing selector entry, or bound node outside `validNodes`)
never adds a node to the suspended set. -/
theorem C9_suspension_only_with_kill (valid : List String) (image : String) :
    (∀ (pods : List Pod) (st : ClassifyState) (b : String),
      ((pods.foldl (classifyPod valid image) st).suspended.contains b = true) →
      st.suspended.contains b = true ∨
      ∃ p, p ∈ pods ∧
        ((pods.foldl (classifyPod valid image) st).toKill.contains p.name = true) ∧
        lookup p.nodeSelector DOTMESH_NODE_LABEL = some b) ∧
    (∀ (p : Pod) (st : ClassifyState), classifyVerdict valid image p = .killOnly →
      (classifyPod valid image st p).suspended = st.suspended) := by
  constructor
  · intro pods
    induction pods with
    | nil => intro st b h; exact Or.inl h
    | cons q rest ih =>
      intro st b h
      rw [List.foldl_cons] at h
      rcases ih (classifyPod valid image st q) b h with h1 | ⟨p, hp, hk, hsel⟩
      · cases hv : classifyVerdict valid image q with
        | killOnly =>
          left
          rwa [classifyPod_suspended_killOnly hv] at h1
        | healthy b2 =>
          left
          rwa [classifyPod_suspended_healthy hv] at h1
        | killSuspend b2 =>
          rw [classifyPod_suspended_killSuspend hv] at h1
          rcases contains_setInsert h1 with heq | hold
          · subst heq
            right
            refine ⟨q, List.mem_cons_self _ _, ?_, killSuspend_sel hv⟩
            rw [List.foldl_cons]
            exact classifyFold_toKill_mono valid image rest _
              (classifyPod_toKill_self (by rw [hv]; rfl))
          · exact Or.inl hold
      · exact Or.inr ⟨p, List.mem_cons_of_mem _ hp, by rw [List.foldl_cons]; exact hk, hsel⟩
  · intro p st hv
    exact classifyPod_suspended_killOnly hv

/-- Witness for C9: in `rollState` the node `n2` is suspended, and it is
indeed the bound node of a marked pod. -/
theorem C9_suspension_only_with_kill_witness :
    ((rollState.pods.foldl
        (classifyPod (buildNodeSet rollState.nodes) "new-image")
        { undotted := buildNodeSet rollState.nodes }).suspended.contains "n2" = true) ∧
    (({ undotted := buildNodeSet rollState.nodes } : ClassifyState).suspended.contains "n2"
        = true ∨
     ∃ p, p ∈ rollState.pods ∧
       ((rollState.pods.foldl
          (classifyPod (buildNodeSet rollState.nodes) "new-image")
          { undotted := buildNodeSet rollState.nodes }).toKill.contains p.name = true) ∧
       lookup p.nodeSelector DOTMESH_NODE_LABEL = some "n2") :=
  ⟨by decide,
   (C9_suspension_only_with_kill (buildNodeSet rollState.nodes) "new-image").1
     rollState.pods { undotted := buildNodeSet rollState.nodes } "n2" (by decide)⟩

/-- C10: a pod exactly as built by the creation step for node `n`, later
observed in any non-Failed phase while `n` is still a valid node,
passes every classification check: it gets a `healthy` verdict, is not
marked to kill, suspends nothing, and strikes `n` off `undottedNodes`. -/
theorem C10_created_pod_classified_healthy (valid : List String)
    (cfg : List (String × String)) (image n : String) (st : ClassifyState)
    (ph : String) (hph : ph ≠ "Failed") (hvalid : valid.contains n = true) :
    classifyVerdict valid image (withPhase (buildPod cfg image n) ph) = .healthy n ∧
    (classifyPod valid image st (withPhase (buildPod cfg image n) ph)).toKill
      = st.toKill ∧
    (classifyPod valid image st (withPhase (buildPod cfg image n) ph)).suspended
      = st.suspended ∧
    (classifyPod valid image st (withPhase (buildPod cfg image n) ph)).undotted
      = setRemove st.undotted n := by
  have hsel : lookup (withPhase (buildPod cfg image n) ph).nodeSelector
      DOTMESH_NODE_LABEL = some n := by
    simp [withPhase, buildPod, lookup]
  have hmem : n ∈ valid := contains_mem.mp hvalid
  have hv : classifyVerdict valid image (withPhase (buildPod cfg image n) ph)
      = .healthy n := by
    rw [classifyVerdict_some hsel]
    simp [withPhase, buildPod, dotmeshContainer, hmem, hph]
  refine ⟨hv, ?_, classifyPod_suspended_healthy hv, classifyPod_undotted_healthy hv⟩
  simp only [classifyPod, hv, applyVerdict]

/-- Witness for C10 on a one-node cluster: the freshly built pod
observed in phase Running is classified healthy. -/
theorem C10_created_pod_classified_healthy_witness :
    ("Running" ≠ "Failed" ∧ (["n1"].contains "n1") = true) ∧
    (classifyVerdict ["n1"] "img" (withPhase (buildPod [] "img" "n1") "Running")
        = .healthy "n1" ∧
     (classifyPod ["n1"] "img" {} (withPhase (buildPod [] "img" "n1") "Running")).toKill
        = ({} : ClassifyState).toKill ∧
     (classifyPod ["n1"] "img" {} (withPhase (buildPod [] "img" "n1") "Running")).suspended
        = ({} : ClassifyState).suspended ∧
     (classifyPod ["n1"] "img" {} (withPhase (buildPod [] "img" "n1") "Running")).undotted
        = setRemove ({} : ClassifyState).undotted "n1") :=
  ⟨⟨by decide, by decide⟩,
   C10_created_pod_classified_healthy ["n1"] [] "img" "n1" {} "Running"
     (by decide) (by decide)⟩

/-! ## Lemmas about API failure handling -/

/-- If some node needing a label has its update rejected, the labelling
loop reports the error. -/
theorem labelNodes_aborts (failU : String → Bool) :
    ∀ (ns : List Node),
    (∃ n, n ∈ ns ∧ needsLabel n = true ∧ failU n.name = true) →
    (labelNodes failU ns).2 = true := by
  intro ns
  induction ns with
  | nil => intro h; obtain ⟨n, hn, _, _⟩ := h; simp at hn
  | cons m rest ih =>
    intro h
    obtain ⟨n, hn, hneed, hfail⟩ := h
    rcases List.mem_cons.mp hn with heq | htail
    · subst heq
      simp only [labelNodes, hneed, if_true, hfail]
    · cases hm : needsLabel m with
      | false =>
        simp only [labelNodes, hm, Bool.false_eq_true, if_false]
        exact ih ⟨n, htail, hneed, hfail⟩
      | true =>
        cases hf : failU m.name with
        | true => simp only [labelNodes, hm, if_true, hf]
        | false =>
          simp only [labelNodes, hm, if_true, hf, Bool.false_eq_true, if_false]
          exact ih ⟨n, htail, hneed, hfail⟩

/-- The attempted deletions do not depend on which delete calls fail. -/
theorem deletePass_fst_oracle (isRun failD failD2 : String → Bool) (minPop : Nat) :
    ∀ (ks : List String) (pop : Nat),
    (deletePass isRun failD minPop ks pop).1 = (deletePass isRun failD2 minPop ks pop).1 := by
  intro ks
  induction ks with
  | nil => intro pop; rfl
  | cons k rest ih =>
    intro pop
    simp only [deletePass]
    split
    · simp only [List.cons.injEq, true_and]
      exact ih _
    · exact ih _

/-- The attempted creations do not depend on which create calls fail. -/
theorem createPass_fst_oracle (cfg : List (String × String)) (image : String)
    (failC failC2 : String → Bool) (suspended : List String) :
    ∀ (undotted : List String),
    (createPass cfg image failC suspended undotted).1
      = (createPass cfg image failC2 suspended undotted).1 := by
  intro undotted
  induction undotted with
  | nil => rfl
  | cons n rest ih =>
    simp only [createPass]
    split
    · exact ih
    · simp only [List.cons.injEq, true_and]
      exact ih

/-- C6: a node-label update failure aborts the pass before any pod
deletion or creation is attempted, while delete/create failures do not
change which deletions and creations the pass attempts. -/
theorem C6_error_propagation (cfg : List (String × String)) (image : String)
    (failU failD failC : String → Bool) (cache : ClusterCache) :
    ((∃ n, n ∈ cache.nodes ∧ needsLabel n = true ∧ failU n.name = true) →
      (process cfg image failU failD failC cache).aborted = true ∧
      (process cfg image failU failD failC cache).deletions = [] ∧
      (process cfg image failU failD failC cache).creations = []) ∧
    (∀ (failD2 failC2 : String → Bool),
      (process cfg image failU failD failC cache).aborted
        = (process cfg image failU failD2 failC2 cache).aborted ∧
      (process cfg image failU failD failC cache).nodeUpdates
        = (process cfg image failU failD2 failC2 cache).nodeUpdates ∧
      (process cfg image failU failD failC cache).deletions
        = (process cfg image failU failD2 failC2 cache).deletions ∧
      (process cfg image failU failD failC cache).creations
        = (process cfg image failU failD2 failC2 cache).creations) := by
  constructor
  · intro hex
    have hab := labelNodes_aborts failU cache.nodes hex
    refine ⟨?_, ?_, ?_⟩ <;> simp [process, hab]
  · intro failD2 failC2
    cases hlab : (labelNodes failU cache.nodes).2 with
    | true => refine ⟨?_, ?_, ?_, ?_⟩ <;> simp [process, hlab]
    | false =>
      refine ⟨?_, ?_, ?_, ?_⟩ <;>
        simp only [process, hlab, Bool.false_eq_true, if_false]
      · exact deletePass_fst_oracle _ failD failD2 _ _ _
      · exact createPass_fst_oracle cfg image failC failC2 _ _

/-- Witness for C6: on the cold start with an always-failing node-update
API, the pass aborts with no deletions and no creations. -/
theorem C6_error_propagation_witness :
    (∃ n, n ∈ coldStart.nodes ∧ needsLabel n = true ∧
      (fun _ => true) n.name = true) ∧
    ((process [] "img" (fun _ => true) noFail noFail coldStart).aborted = true ∧
     (process [] "img" (fun _ => true) noFail noFail coldStart).deletions = [] ∧
     (process [] "img" (fun _ => true) noFail noFail coldStart).creations = []) :=
  ⟨⟨{ name := "n1" }, by decide, by decide, rfl⟩,
   (C6_error_propagation [] "img" (fun _ => true) noFail noFail coldStart).1
     ⟨{ name := "n1" }, by decide, by decide, rfl⟩⟩

/-! ## Converged states and idempotence -/

theorem classifyPod_toKill_healthy {valid : List String} {image : String}
    {st : ClassifyState} {p : Pod} {b : String}
    (hv : classifyVerdict valid image p = .healthy b) :
    (classifyPod valid image st p).toKill = st.toKill := by
  simp only [classifyPod, hv, applyVerdict]

theorem classifyPod_undotted_killOnly {valid : List String} {image : String}
    {st : ClassifyState} {p : Pod}
    (hv : classifyVerdict valid image p = .killOnly) :
    (classifyPod valid image st p).undotted = st.undotted := by
  simp only [classifyPod, hv, applyVerdict]

theorem classifyPod_undotted_killSuspend {valid : List String} {image : String}
    {st : ClassifyState} {p : Pod} {b : String}
    (hv : classifyVerdict valid image p = .killSuspend b) :
    (classifyPod valid image st p).undotted = st.undotted := by
  simp only [classifyPod, hv, applyVerdict]

theorem healthy_of_boundIfHealthy {v : Verdict}
    (h : v.boundIfHealthy.isSome = true) : ∃ b, v = .healthy b := by
  cases v with
  | killOnly => simp [Verdict.boundIfHealthy] at h
  | killSuspend b => simp [Verdict.boundIfHealthy] at h
  | healthy b => exact ⟨b, rfl⟩

theorem healthy_of_bound_eq {v : Verdict} {b : String}
    (h : v.boundIfHealthy = some b) : v = .healthy b := by
  cases v with
  | killOnly => simp [Verdict.boundIfHealthy] at h
  | killSuspend b2 => simp [Verdict.boundIfHealthy] at h
  | healthy b2 => simp only [Verdict.boundIfHealthy, Option.some.injEq] at h; rw [h]

/-- When no node needs a label, the labelling loop is silent. -/
theorem labelNodes_silent (failU : String → Bool) :
    ∀ (ns : List Node), (∀ n ∈ ns, needsLabel n = false) →
    labelNodes failU ns = ([], false) := by
  intro ns
  induction ns with
  | nil => intro _; rfl
  | cons m rest ih =>
    intro h
    have hm := h m (List.mem_cons_self _ _)
    simp only [labelNodes, hm, Bool.false_eq_true, if_false]
    exact ih (fun n hn => h n (List.mem_cons_of_mem _ hn))

/-- When every pod classifies healthy, the fold marks nothing and
suspends nothing. -/
theorem classifyFold_all_healthy (valid : List String) (image : String) :
    ∀ (pods : List Pod) (st : ClassifyState),
    (∀ p ∈ pods, (classifyVerdict valid image p).boundIfHealthy.isSome = true) →
    ((pods.foldl (classifyPod valid image) st).toKill = st.toKill ∧
     (pods.foldl (classifyPod valid image) st).suspended = st.suspended) := by
  intro pods
  induction pods with
  | nil => intro st _; exact ⟨rfl, rfl⟩
  | cons q rest ih =>
    intro st h
    obtain ⟨b, hb⟩ := healthy_of_boundIfHealthy (h q (List.mem_cons_self _ _))
    rw [List.foldl_cons]
    have hrest := ih (classifyPod valid image st q)
      (fun p hp => h p (List.mem_cons_of_mem _ hp))
    exact ⟨hrest.1.trans (classifyPod_toKill_healthy hb),
      hrest.2.trans (classifyPod_suspended_healthy hb)⟩

/-- A node that is still undotted after the fold was undotted at the
start and has no pod with a healthy verdict bound to it. -/
theorem classifyFold_undotted_contains (valid : List String) (image : String) :
    ∀ (pods : List Pod) (st : ClassifyState) (b : String),
    ((pods.foldl (classifyPod valid image) st).undotted.contains b = true) →
    st.undotted.contains b = true ∧
    ∀ p ∈ pods, classifyVerdict valid image p ≠ .healthy b := by
  intro pods
  induction pods with
  | nil => intro st b h; exact ⟨h, by intro p hp; simp at hp⟩
  | cons q rest ih =>
    intro st b h
    rw [List.foldl_cons] at h
    obtain ⟨h1, h2⟩ := ih _ b h
    cases hv : classifyVerdict valid image q with
    | killOnly =>
      rw [classifyPod_undotted_killOnly hv] at h1
      refine ⟨h1, ?_⟩
      intro p hp
      rcases List.mem_cons.mp hp with heq | ht
      · subst heq; simp [hv]
      · exact h2 p ht
    | killSuspend b2 =>
      rw [classifyPod_undotted_killSuspend hv] at h1
      refine ⟨h1, ?_⟩
      intro p hp
      rcases List.mem_cons.mp hp with heq | ht
      · subst heq; simp [hv]
      · exact h2 p ht
    | healthy b2 =>
      rw [classifyPod_undotted_healthy hv] at h1
      obtain ⟨h1a, h1b⟩ := contains_setRemove h1
      refine ⟨h1a, ?_⟩
      intro p hp
      rcases List.mem_cons.mp hp with heq | ht
      · subst heq
        rw [hv]
        intro hcon
        exact h1b (Verdict.healthy.inj hcon).symm
      · exact h2 p ht

/-- A cluster cache is converged when every node already carries its own
name as identity label, every pod classifies healthy, and every valid
node has a healthy pod bound to it. -/
def convergedB (image : String) (cache : ClusterCache) : Bool :=
  cache.nodes.all (fun n => !needsLabel n) &&
  (cache.pods.all (fun p =>
    (classifyVerdict (buildNodeSet cache.nodes) image p).boundIfHealthy.isSome) &&
  (buildNodeSet cache.nodes).all (fun b =>
    cache.pods.any (fun p =>
      (classifyVerdict (buildNodeSet cache.nodes) image p).boundIfHealthy == some b)))

/-- C4 counterexample: with the rolling-upgrade cache `rollState`, a
pass deletes `dotmesh-n1`; a second pass with no cluster change — the
caches unchanged — runs on the very same input and repeats that
deletion, so the second run is not free of mutating calls.  Even when
the first pass's deletion is applied to the cache (`rollState2`) before
the second run, the second run creates `dotmesh-n1`. -/
theorem C4_idempotence_counterexample :
    (process [] "new-image" noFail noFail noFail rollState).deletions
      = ["dotmesh-n1"] ∧
    (process [] "new-image" noFail noFail noFail rollState2).creations.map Pod.name
      = ["dotmesh-n1"] := by
  refine ⟨by decide, ?_⟩
  rfl

/-- C4 amended: the pass is a deterministic function of its caches, so a
second run on unchanged caches repeats the first run's calls rather
than being silent; a pass issues no cluster-mutating calls on a
*converged* cache — every node labelled with its own name, every pod
healthy, every valid node covered by a healthy pod. -/
theorem C4_silent_pass_on_converged (cfg : List (String × String)) (image : String)
    (failU failD failC : String → Bool) (cache : ClusterCache)
    (hconv : convergedB image cache = true) :
    process cfg image failU failD failC cache =
      { nodeUpdates := [], deletions := [], deleteErrors := [],
        creations := [], createErrors := [], aborted := false } := by
  unfold convergedB at hconv
  rw [Bool.and_eq_true, Bool.and_eq_true] at hconv
  obtain ⟨h1, h2, h3⟩ := hconv
  rw [List.all_eq_true] at h1 h3
  rw [List.all_eq_true] at h2
  have hlab : labelNodes failU cache.nodes = ([], false) :=
    labelNodes_silent failU cache.nodes (fun n hn => by
      have := h1 n hn; simpa using this)
  have hsets := classifyFold_all_healthy (buildNodeSet cache.nodes) image cache.pods
    { undotted := buildNodeSet cache.nodes } (fun p hp => h2 p hp)
  have hkill : (passClassify image cache).toKill = [] := hsets.1
  have hsusp : (passClassify image cache).suspended = [] := hsets.2
  have hund : (passClassify image cache).undotted = [] := by
    cases hu : (passClassify image cache).undotted with
    | nil => rfl
    | cons b rest =>
      exfalso
      have hcont : (passClassify image cache).undotted.contains b = true := by
        rw [hu]; simp
      obtain ⟨hb0, hnone⟩ := classifyFold_undotted_contains (buildNodeSet cache.nodes)
        image cache.pods { undotted := buildNodeSet cache.nodes } b hcont
      have hbval : b ∈ buildNodeSet cache.nodes := contains_mem.mp hb0
      have hany := h3 b hbval
      rw [List.any_eq_true] at hany
      obtain ⟨p, hp, hpb⟩ := hany
      exact hnone p hp (healthy_of_bound_eq (eq_of_beq hpb))
  simp only [process, hlab]
  rw [hkill, hsusp, hund]
  simp [deletePass, createPass]

/-- Witness for the amended C4: the converged one-node cluster passes
with no mutating API call at all. -/
theorem C4_silent_pass_on_converged_witness :
    convergedB "img" convState = true ∧
    process [] "img" noFail noFail noFail convState =
      { nodeUpdates := [], deletions := [], deleteErrors := [],
        creations := [], createErrors := [], aborted := false } :=
  ⟨by decide,
   C4_silent_pass_on_converged [] "img" noFail noFail noFail convState (by decide)⟩
